import Mathlib

/-!
Shallow embedding of `server.py` (banknifty-bot): a webhook-driven options
trading engine.  The embedding models the symbol resolver (strike and
monthly-expiry computation), the retrying broker wrappers (`safe_ltp`,
`place_order`), the position snapshot (`get_current_positions`), and the
`/webhook` decision core, together with theorems settling the frozen claims.

Numbers: spot prices are exact rationals; timestamps for the cooldown are
integers counting microseconds, exactly as Python's `datetime` stores them;
calendar dates are (year, month, day) triples mapped to proleptic-Gregorian
day numbers (1970-01-01 = day 0).  Integer division `/` and `%` on `ℤ` are
euclidean, which for the positive divisors used here agrees with Python's
floor division.
-/

namespace Banknifty

/-- Leap-year test of the proleptic Gregorian calendar, as Python's
`calendar` module implements it. -/
def isLeap (y : ℤ) : Bool := (y % 4 == 0 && y % 100 != 0) || (y % 400 == 0)

/-- Number of days in month `m` of year `y`, i.e. `calendar.monthrange(y, m)[1]`. -/
def monthrange (y : ℤ) (m : ℕ) : ℤ :=
  if m = 2 then (if isLeap y then 29 else 28)
  else if m = 4 ∨ m = 6 ∨ m = 9 ∨ m = 11 then 30
  else 31

/-- Cumulative number of days strictly before month `m` in a non-leap year. -/
def daysBeforeMonth : ℕ → ℤ
  | 1 => 0 | 2 => 31 | 3 => 59 | 4 => 90 | 5 => 120 | 6 => 151 | 7 => 181
  | 8 => 212 | 9 => 243 | 10 => 273 | 11 => 304 | 12 => 334 | _ => 0

/-- Day number of the calendar date `y-m-d` in the proleptic Gregorian
calendar, shifted so that 1970-01-01 is day 0 (the day arithmetic underlying
Python's `datetime`). -/
def epochDays (y : ℤ) (m : ℕ) (d : ℤ) : ℤ :=
  365 * (y - 1) + (y - 1) / 4 - (y - 1) / 100 + (y - 1) / 400
    + daysBeforeMonth m + (if 2 < m ∧ isLeap y then 1 else 0) + d - 719163

/-- Python's `datetime.weekday()` (Monday = 0 … Sunday = 6) of an epoch day
number; 1970-01-01 was a Thursday, weekday 3. -/
def weekday (n : ℤ) : ℤ := (n + 3) % 7

/-- Body of the `while d.weekday() != 3: d -= timedelta(days=1)` loop of
`get_monthly_expiry`, on epoch day numbers.  The fuel bound 7 is enough to
reach the previous Thursday from any weekday (proved below), so the bounded
loop computes exactly what the unbounded Python loop computes. -/
def lastThursdayLoop : ℕ → ℤ → ℤ
  | 0, n => n
  | f + 1, n => if weekday n = 3 then n else lastThursdayLoop f (n - 1)

/-- Inner helper `last_thursday(y, m)` of `get_monthly_expiry`: start at the
last day of the month and walk back to a Thursday. -/
def last_thursday (y : ℤ) (m : ℕ) : ℤ :=
  lastThursdayLoop 7 (epochDays y m (monthrange y m))

/-- Year and month of the expiry selected by `get_monthly_expiry`, given the
current date `y-m-d` and the current time of day `secs` (seconds since
midnight).  Python's `today = datetime.today()` carries the time of day, and
`(expiry - today).days` floors the signed difference to whole days; with the
expiry at midnight this is `((E - D) * 86400 - secs) / 86400` for epoch days
`E`, `D`.  If fewer than 5 such days remain, the following month is selected
(December wraps to January).  The formatted output of the source only uses
the year and month of the selected expiry date, which `last_thursday` always
places inside the selected month (proved below). -/
def get_monthly_expiry_ym (y : ℤ) (m : ℕ) (d : ℤ) (secs : ℤ) : ℤ × ℕ :=
  let expiry := last_thursday y m
  let deltaDays := ((expiry - epochDays y m d) * 86400 - secs) / 86400
  if deltaDays < 5 then (if m = 12 then (y + 1, 1) else (y, m + 1)) else (y, m)

/-- Upper-cased English month abbreviations, as `strftime("%b").upper()`
produces for the C locale. -/
def monthAbbrevUpper : ℕ → String
  | 1 => "JAN" | 2 => "FEB" | 3 => "MAR" | 4 => "APR" | 5 => "MAY" | 6 => "JUN"
  | 7 => "JUL" | 8 => "AUG" | 9 => "SEP" | 10 => "OCT" | 11 => "NOV" | 12 => "DEC"
  | _ => ""

/-- Formatting `expiry.strftime("%y%b").upper()`: two-digit zero-padded year
followed by the upper-cased month abbreviation. -/
def strftime_yb (y : ℤ) (m : ℕ) : String :=
  let yy := (y % 100).toNat
  (if yy < 10 then "0" ++ toString yy else toString yy) ++ monthAbbrevUpper m

/-- The string returned by `get_monthly_expiry`, e.g. `"25JUN"`. -/
def get_monthly_expiry (y : ℤ) (m : ℕ) (d : ℤ) (secs : ℤ) : String :=
  let ym := get_monthly_expiry_ym y m d secs
  strftime_yb ym.1 ym.2

/-- Python `int(x / 100)` on an exact rational `x`: since
`x / 100 = x.num / (x.den * 100)` and `int` truncates toward zero, this is
truncated integer division of the numerator by `den * 100`. -/
def intdiv100 (q : ℚ) : ℤ := q.num.tdiv (q.den * 100)

/-- Strike computed by `get_option_symbol` (`step = 100`):
`int(spot_price / step) * step` when the side is `"CE"`, and
`(int(spot_price / step) + 1) * step` for every other side value (the
source's conditional expression has no third branch). -/
def strike_of (spot_price : ℚ) (option_type : String) : ℤ :=
  if option_type = "CE" then intdiv100 spot_price * 100
  else (intdiv100 spot_price + 1) * 100

/-- Symbol string built by `get_option_symbol`:
`f"BANKNIFTY{expiry}{strike}{option_type}"`. -/
def get_option_symbol (spot_price : ℚ) (option_type : String)
    (y : ℤ) (m : ℕ) (d : ℤ) (secs : ℤ) : String :=
  "BANKNIFTY" ++ get_monthly_expiry y m d secs
    ++ toString (strike_of spot_price option_type) ++ option_type

/-! Properties of the calendar embedding. -/

/-- Every month has at least 28 days. -/
theorem monthrange_ge (y : ℤ) (m : ℕ) : 28 ≤ monthrange y m := by
  unfold monthrange
  split_ifs <;> norm_num

/-- Day numbers are linear in the day-of-month argument. -/
theorem epochDays_day (y : ℤ) (m : ℕ) (d : ℤ) :
    epochDays y m d = epochDays y m 0 + d := by
  unfold epochDays
  ring

/-- Closed form of the walk-back-to-Thursday loop: Thursdays are exactly the
day numbers divisible by 7, and with enough fuel the loop lands on the
previous one. -/
theorem lastThursdayLoop_eq (f : ℕ) (n : ℤ) (h : n % 7 ≤ f) :
    lastThursdayLoop f n = n - n % 7 := by
  induction f generalizing n with
  | zero =>
    simp only [lastThursdayLoop]
    omega
  | succ f ih =>
    simp only [lastThursdayLoop, weekday]
    split
    · omega
    · rw [ih (n - 1) (by omega)]
      omega

/-- Characterisation of `last_thursday`: it is a Thursday, it lies between
day 22 and the last day of the month (hence inside the month), and no later
day of the month is a Thursday. -/
theorem last_thursday_spec (y : ℤ) (m : ℕ) :
    weekday (last_thursday y m) = 3 ∧
    epochDays y m 22 ≤ last_thursday y m ∧
    last_thursday y m ≤ epochDays y m (monthrange y m) ∧
    ∀ k, last_thursday y m < k → k ≤ epochDays y m (monthrange y m) →
      weekday k ≠ 3 := by
  have h28 := monthrange_ge y m
  have h22 := epochDays_day y m 22
  have hlast := epochDays_day y m (monthrange y m)
  have hloop := lastThursdayLoop_eq 7 (epochDays y m (monthrange y m)) (by omega)
  unfold last_thursday
  rw [hloop]
  unfold weekday
  refine ⟨by omega, by omega, by omega, ?_⟩
  intro k hk1 hk2
  omega

/-- The roll decision of `get_monthly_expiry`, rewritten in calendar terms:
with `T` the current month's last Thursday and `D` today's day number, the
current month is kept exactly when either at least 6 calendar days remain,
or exactly 5 remain and the resolution happens exactly at midnight. -/
theorem get_monthly_expiry_ym_eq (y : ℤ) (m : ℕ) (d secs : ℤ)
    (hs0 : 0 ≤ secs) (hs1 : secs < 86400) :
    get_monthly_expiry_ym y m d secs =
      if 5 ≤ last_thursday y m - epochDays y m d ∧
          (secs = 0 ∨ 6 ≤ last_thursday y m - epochDays y m d)
      then (y, m)
      else if m = 12 then (y + 1, 1) else (y, m + 1) := by
  dsimp only [get_monthly_expiry_ym]
  split_ifs <;> first | rfl | omega

/-- Bracketing of the truncated division used for the strike: for a positive
spot price `p`, `int(p / 100)` satisfies `int(p/100) * 100 ≤ p < (int(p/100) + 1) * 100`. -/
theorem intdiv100_bounds (p : ℚ) (hp : 0 < p) :
    ((intdiv100 p : ℤ) : ℚ) * 100 ≤ p ∧ p < (((intdiv100 p : ℤ) : ℚ) + 1) * 100 := by
  have hnum : 0 < p.num := Rat.num_pos.mpr hp
  have hden : (0 : ℤ) < ((p.den : ℤ) * 100) := by positivity
  have hdenQ : (0 : ℚ) < (p.den : ℚ) := by positivity
  have htd : intdiv100 p = p.num / ((p.den : ℤ) * 100) := by
    unfold intdiv100
    exact Int.tdiv_eq_ediv (le_of_lt hnum) (le_of_lt hden)
  have h1 : intdiv100 p * ((p.den : ℤ) * 100) ≤ p.num := by
    rw [htd]
    exact Int.ediv_mul_le p.num (by omega)
  have h2 : p.num < (intdiv100 p + 1) * ((p.den : ℤ) * 100) := by
    rw [htd]
    exact Int.lt_ediv_add_one_mul_self p.num hden
  have hpd : p * (p.den : ℚ) = (p.num : ℚ) := by
    have h := Rat.num_div_den p
    rw [div_eq_iff (ne_of_gt hdenQ)] at h
    linarith [h]
  constructor
  · refine le_of_mul_le_mul_right ?_ hdenQ
    rw [hpd]
    calc ((intdiv100 p : ℤ) : ℚ) * 100 * (p.den : ℚ)
        = ((intdiv100 p * ((p.den : ℤ) * 100) : ℤ) : ℚ) := by push_cast; ring
      _ ≤ ((p.num : ℤ) : ℚ) := by exact_mod_cast h1
  · refine lt_of_mul_lt_mul_right ?_ (le_of_lt hdenQ)
    rw [hpd]
    calc ((p.num : ℤ) : ℚ)
        < (((intdiv100 p + 1) * ((p.den : ℤ) * 100) : ℤ) : ℚ) := by exact_mod_cast h2
      _ = (((intdiv100 p : ℤ) : ℚ) + 1) * 100 * (p.den : ℚ) := by push_cast; ring

/-- C5 (counterexample): at a spot price that is an exact multiple of 100 the
claimed strict lower bound `strike - 100 < p` for the PE strike fails: at
`p = 100` the PE strike is 200 and `200 - 100 = 100` is not less than `p`. -/
theorem strike_pe_lower_bound_counterexample :
    strike_of 100 "PE" = 200 ∧ ¬ (((strike_of 100 "PE" : ℤ) : ℚ) - 100 < 100) := by
  have h : strike_of 100 "PE" = 200 := by decide
  refine ⟨h, ?_⟩
  rw [h]
  norm_num

/-- C5 (amended): for every positive spot price `p`, the CE strike is the
multiple of 100 with `strike ≤ p < strike + 100`, and the PE strike is the
multiple of 100 with `strike - 100 ≤ p < strike` (the lower bound is attained
exactly when `p` is itself a multiple of 100). -/
theorem strike_of_bounds (p : ℚ) (hp : 0 < p) :
    (strike_of p "CE" % 100 = 0 ∧
      ((strike_of p "CE" : ℤ) : ℚ) ≤ p ∧ p < ((strike_of p "CE" : ℤ) : ℚ) + 100) ∧
    (strike_of p "PE" % 100 = 0 ∧
      ((strike_of p "PE" : ℤ) : ℚ) - 100 ≤ p ∧ p < ((strike_of p "PE" : ℤ) : ℚ)) := by
  obtain ⟨h1, h2⟩ := intdiv100_bounds p hp
  have hce : strike_of p "CE" = intdiv100 p * 100 := by
    unfold strike_of
    rw [if_pos rfl]
  have hpe : strike_of p "PE" = (intdiv100 p + 1) * 100 := by
    unfold strike_of
    rw [if_neg (by decide)]
  refine ⟨⟨by omega, ?_, ?_⟩, ⟨by omega, ?_, ?_⟩⟩
  · rw [hce]; push_cast; linarith
  · rw [hce]; push_cast; linarith
  · rw [hpe]; push_cast; linarith
  · rw [hpe]; push_cast; linarith

/-- Witness for `strike_of_bounds` at the concrete spot price 250. -/
theorem strike_of_bounds_witness :
    (0 : ℚ) < 250 ∧
    ((strike_of 250 "CE" % 100 = 0 ∧
        ((strike_of 250 "CE" : ℤ) : ℚ) ≤ 250 ∧
        (250 : ℚ) < ((strike_of 250 "CE" : ℤ) : ℚ) + 100) ∧
      (strike_of 250 "PE" % 100 = 0 ∧
        ((strike_of 250 "PE" : ℤ) : ℚ) - 100 ≤ 250 ∧
        (250 : ℚ) < ((strike_of 250 "PE" : ℤ) : ℚ))) :=
  ⟨by norm_num, strike_of_bounds 250 (by norm_num)⟩

/-- C6 (counterexample): resolving on 2025-06-21 at noon, exactly 5 calendar
days before that month's last Thursday 2025-06-26, selects the NEXT month's
expiry `"25JUL"`, not the current month's as claimed: the code subtracts full
timestamps and floors to whole days, so the time of day eats one day. -/
theorem expiry_five_days_counterexample :
    last_thursday 2025 6 = epochDays 2025 6 26 ∧
    epochDays 2025 6 26 - epochDays 2025 6 21 = 5 ∧
    get_monthly_expiry 2025 6 21 43200 = "25JUL" := by
  refine ⟨by decide, by decide, by decide⟩

/-- C6 (amended): the expiry helper picks the last Thursday of the current
month — a Thursday inside the month after which no later day of the month is
a Thursday — and keeps the current month exactly when at least 6 calendar
days remain before it, or exactly 5 remain and the resolution time is
precisely midnight; otherwise (fewer days remaining, or exactly 5 with any
nonzero time of day) it rolls to the following month, December wrapping to
January of the next year. -/
theorem expiry_selection_spec (y : ℤ) (m : ℕ) (d secs : ℤ)
    (hs0 : 0 ≤ secs) (hs1 : secs < 86400) :
    (weekday (last_thursday y m) = 3 ∧
      epochDays y m 22 ≤ last_thursday y m ∧
      last_thursday y m ≤ epochDays y m (monthrange y m) ∧
      ∀ k, last_thursday y m < k → k ≤ epochDays y m (monthrange y m) →
        weekday k ≠ 3) ∧
    get_monthly_expiry_ym y m d secs =
      (if 5 ≤ last_thursday y m - epochDays y m d ∧
          (secs = 0 ∨ 6 ≤ last_thursday y m - epochDays y m d)
        then (y, m)
        else if m = 12 then (y + 1, 1) else (y, m + 1)) :=
  ⟨last_thursday_spec y m, get_monthly_expiry_ym_eq y m d secs hs0 hs1⟩

/-- Witness for `expiry_selection_spec`: on 2025-06-20 at midnight, 6 days
before the last Thursday 2025-06-26, the current month's expiry is kept. -/
theorem expiry_selection_spec_witness :
    ((0 : ℤ) ≤ 0 ∧ (0 : ℤ) < 86400) ∧
    get_monthly_expiry_ym 2025 6 20 0 = (2025, 6) := by
  refine ⟨⟨by decide, by decide⟩, ?_⟩
  have h := (expiry_selection_spec 2025 6 20 0 (by decide) (by decide)).2
  rw [h]
  decide

-- Sanity checks of the calendar embedding against known dates.
example : epochDays 1970 1 1 = 0 := by decide
example : epochDays 2025 1 1 = 20089 := by decide
example : weekday (epochDays 2025 1 1) = 2 := by decide
example : weekday (epochDays 2025 6 26) = 3 := by decide
example : monthrange 2024 2 = 29 := by decide
example : monthrange 2025 2 = 28 := by decide
example : last_thursday 2025 6 = epochDays 2025 6 26 := by decide
example : get_monthly_expiry 2025 6 10 0 = "25JUN" := by decide
example : intdiv100 56789 = 567 := by decide
example : strike_of 56789 "CE" = 56700 := by decide
example : strike_of 56789 "PE" = 56800 := by decide
example : get_option_symbol 56789 "PE" 2025 6 10 0 = "BANKNIFTY25JUN56800PE" := by
  decide

/-! Embedding of the webhook decision core. -/

/-- Python's `str.endswith`: suffix test on the character sequences. -/
def pyEndsWith (s suffixStr : String) : Bool :=
  List.isSuffixOf suffixStr.data s.data

/-- Default order quantity (environment variable `DEFAULT_QTY`, default `"35"`). -/
def DEFAULT_QTY : ℤ := 35

/-- Observable broker effects of one request: `kite.ltp` attempts,
`kite.place_order` attempts (symbol, transaction type, quantity, success) and
the `time.sleep` pauses of the retry loops. -/
inductive Event
  | ltp (ok : Bool)
  | order (tradingsymbol : Option String) (transaction_type : String) (qty : ℤ) (ok : Bool)
  | sleep (seconds : ℕ)
deriving DecidableEq

/-- Behaviour of the external broker during one request: the result of the
`kite.ltp` call at each attempt index (`none` models the call raising), the
success of the `kite.place_order` call at each order-attempt index (counted
across the whole request), and the `kite.positions()["net"]` result (`none`
models the query raising). -/
structure Broker where
  ltpResult : ℕ → Option ℚ
  orderOk : ℕ → Bool
  netPositions : Option (List (String × ℤ))

/-- Retry loop of `safe_ltp` (`for attempt in range(5)`), with the attempt
budget made explicit: each failed try logs and sleeps 1 s; a result of `none`
models the final `raise`.  Returns the result, the next attempt index, and
the events emitted. -/
def safe_ltp_go (fetch : ℕ → Option ℚ) : ℕ → ℕ → Option ℚ × ℕ × List Event
  | 0, i => (none, i, [])
  | a + 1, i =>
    match fetch i with
    | some price => (some price, i + 1, [Event.ltp true])
    | none =>
      let r := safe_ltp_go fetch a (i + 1)
      (r.1, r.2.1, Event.ltp false :: Event.sleep 1 :: r.2.2)

/-- `safe_ltp(symbol)`: five attempts against the broker's LTP endpoint. -/
def safe_ltp (fetch : ℕ → Option ℚ) : Option ℚ × ℕ × List Event :=
  safe_ltp_go fetch 5 0

/-- Retry loop of `place_order` (`for attempt in range(5)`), with the attempt
budget explicit.  The symbol is optional because the caller may pass Python's
`None` (the flip branch does when no opposite-side position is found).
A result of `false` models the final `raise`. -/
def place_order_go (ok : ℕ → Bool) (tradingsymbol : Option String)
    (transaction_type : String) (qty : ℤ) : ℕ → ℕ → Bool × ℕ × List Event
  | 0, i => (false, i, [])
  | a + 1, i =>
    if ok i then (true, i + 1, [Event.order tradingsymbol transaction_type qty true])
    else
      let r := place_order_go ok tradingsymbol transaction_type qty a (i + 1)
      (r.1, r.2.1,
        Event.order tradingsymbol transaction_type qty false :: Event.sleep 1 :: r.2.2)

/-- `place_order(symbol, qty, transaction_type)`: five attempts with retries. -/
def place_order (ok : ℕ → Bool) (tradingsymbol : Option String)
    (transaction_type : String) (qty : ℤ) (i : ℕ) : Bool × ℕ × List Event :=
  place_order_go ok tradingsymbol transaction_type qty 5 i

/-- `exit_position(symbol, qty)`: a SELL order through `place_order`. -/
def exit_position (ok : ℕ → Bool) (tradingsymbol : Option String) (qty : ℤ)
    (i : ℕ) : Bool × ℕ × List Event :=
  place_order ok tradingsymbol "SELL" qty i

/-- `get_current_positions()`: the in-memory map in test mode; in live mode
the broker's net positions filtered to nonzero quantity, or the empty list
(with a logged warning) when the query fails. -/
def get_current_positions (testMode : Bool) (fake_positions : List (String × ℤ))
    (net : Option (List (String × ℤ))) : List (String × ℤ) :=
  if testMode then fake_positions
  else
    match net with
    | some ps => ps.filter (fun p => p.2 ≠ 0)
    | none => []

/-- `is_market_open()`: IST time of day (seconds since midnight) within
09:15:00–15:30:00, both endpoints included. -/
def is_market_open (istSecs : ℕ) : Bool :=
  decide (33300 ≤ istSecs) && decide (istSecs ≤ 55800)

/-- Assignment `d[k] = v` on an insertion-ordered association list
(Python dict semantics: update in place if present, else append). -/
def dictSet (d : List (String × ℤ)) (k : String) (v : ℤ) : List (String × ℤ) :=
  if d.any (fun p => p.1 = k) then d.map (fun p => if p.1 = k then (k, v) else p)
  else d ++ [(k, v)]

/-- Statement `if opposite_symbol in fake_positions: del ...`; a key of
`none` (Python's `None`) is never a member, so nothing is deleted. -/
def dictDel (d : List (String × ℤ)) (k : Option String) : List (String × ℤ) :=
  match k with
  | none => d
  | some s => d.filter (fun p => p.1 ≠ s)

/-- Module-level mutable state: the rehearsal position map `fake_positions`
and the cooldown stamp `last_flip_time` (microseconds since the epoch —
Python `datetime` values are exact integer microsecond counts). -/
structure BotState where
  fake_positions : List (String × ℤ)
  last_flip_time : Option ℤ
deriving DecidableEq

/-- Environment of one webhook request: the IST time of day for the market
gate, the wall-clock timestamp in microseconds for cooldown arithmetic,
today's date and time of day for expiry resolution, and the parsed JSON body
(`none` for an unparseable body, otherwise the `type` field and the optional
`qty` field). -/
structure Request where
  istSecs : ℕ
  nowUs : ℤ
  year : ℤ
  month : ℕ
  day : ℤ
  daySecs : ℤ
  body : Option (String × Option ℤ)

/-- Test `last_flip_time and (datetime.now() - last_flip_time).total_seconds() < 2`:
strictly less than 2 seconds (2 000 000 µs) since the recorded flip. -/
def cooldown_active (last_flip_time : Option ℤ) (nowUs : ℤ) : Bool :=
  match last_flip_time with
  | none => false
  | some t => decide (nowUs - t < 2000000)

/-- JSON responses of the `/webhook` route, one constructor per `jsonify`
call site in the handler. -/
inductive WebhookResp
  | rejectedOutsideHours
  | invalidJson
  | errorResp (message : String)
  | skippedCooldown
  | skippedAlready (option_type : String)
  | testEntry (entry : String)
  | successEntry (entry : String)
  | testFlip (exitSym : Option String) (enterSym : String)
  | successFlip (exitSym : Option String) (enterSym : String)
deriving DecidableEq

/-- The `status` field of each response; note that an unparseable body and a
caught exception produce the same generic `"error"` status. -/
def WebhookResp.status : WebhookResp → String
  | rejectedOutsideHours => "rejected"
  | invalidJson => "error"
  | errorResp _ => "error"
  | skippedCooldown => "skipped"
  | skippedAlready _ => "skipped"
  | testEntry _ => "test"
  | successEntry _ => "success"
  | testFlip _ _ => "test"
  | successFlip _ _ => "success"

/-- Message of the exception `safe_ltp` raises on exhaustion (the text says
"2 attempts" but the loop makes five). -/
def ltpFailMsg : String := "❌ LTP fetch failed after 2 attempts"

/-- Message of the exception `place_order` raises on exhaustion. -/
def orderFailMsg : String := "❌ Order failed after 2 attempts"

/-- The `/webhook` handler, covering rehearsal (`testMode = true`) and live
mode.  Returns the JSON response, the state after the request, and the broker
events emitted.  Exceptions raised by `safe_ltp`/`place_order` propagate to
the outermost `except` of the handler, which answers with the generic error
response carrying the exception's message. -/
def webhook (br : Broker) (req : Request) (st : BotState) (testMode : Bool) :
    WebhookResp × BotState × List Event :=
  if ¬ is_market_open req.istSecs then (.rejectedOutsideHours, st, [])
  else
    match req.body with
    | none => (.invalidJson, st, [])
    | some (option_type, qtyField) =>
      let qty := qtyField.getD DEFAULT_QTY
      let ltpR := safe_ltp br.ltpResult
      match ltpR.1 with
      | none => (.errorResp ltpFailMsg, st, ltpR.2.2)
      | some spot =>
        let tr0 := ltpR.2.2
        let main_symbol :=
          get_option_symbol spot option_type req.year req.month req.day req.daySecs
        let opposite_type := if option_type = "CE" then "PE" else "CE"
        let positions := get_current_positions testMode st.fake_positions br.netPositions
        let opposite_symbol :=
          (positions.find? (fun p => pyEndsWith p.1 opposite_type)).map (fun p => p.1)
        if cooldown_active st.last_flip_time req.nowUs then (.skippedCooldown, st, tr0)
        else if positions.isEmpty then
          if testMode then
            (.testEntry main_symbol,
              { st with fake_positions := dictSet st.fake_positions main_symbol qty }, tr0)
          else
            let r := place_order br.orderOk (some main_symbol) "BUY" qty 0
            if r.1 then (.successEntry main_symbol, st, tr0 ++ r.2.2)
            else (.errorResp orderFailMsg, st, tr0 ++ r.2.2)
        else if positions.any (fun p => pyEndsWith p.1 option_type) then
          (.skippedAlready option_type, st, tr0)
        else if testMode then
          (.testFlip opposite_symbol main_symbol,
            { fake_positions :=
                dictSet (dictDel st.fake_positions opposite_symbol) main_symbol qty,
              last_flip_time := some req.nowUs }, tr0)
        else
          let r1 := exit_position br.orderOk opposite_symbol qty 0
          if ¬ r1.1 then (.errorResp orderFailMsg, st, tr0 ++ r1.2.2)
          else
            let r2 := place_order br.orderOk (some main_symbol) "BUY" qty r1.2.1
            if ¬ r2.1 then (.errorResp orderFailMsg, st, tr0 ++ r1.2.2 ++ r2.2.2)
            else
              (.successFlip opposite_symbol main_symbol,
                { st with last_flip_time := some req.nowUs },
                tr0 ++ r1.2.2 ++ r2.2.2)

/-- Number of LTP attempts recorded in a trace. -/
def ltpCount (tr : List Event) : ℕ :=
  (tr.filter (fun e => match e with | Event.ltp _ => true | _ => false)).length

/-- Order-placement attempts recorded in a trace, as
(symbol, transaction type, quantity, success) tuples in order. -/
def orderCalls (tr : List Event) : List (Option String × String × ℤ × Bool) :=
  tr.filterMap (fun e =>
    match e with
    | Event.order s t q ok => some (s, t, q, ok)
    | _ => none)

/-- Trace of `a` failed attempts of a retry loop: each failed try emits its
event and a 1-second sleep. -/
def ltpFailTrace : ℕ → List Event
  | 0 => []
  | a + 1 => Event.ltp false :: Event.sleep 1 :: ltpFailTrace a

/-- Trace of `a` failed order attempts for one order. -/
def orderFailTrace (s : Option String) (t : String) (q : ℤ) : ℕ → List Event
  | 0 => []
  | a + 1 => Event.order s t q false :: Event.sleep 1 :: orderFailTrace s t q a

/-! Behaviour of the retry loops. -/

/-- Success on the first attempt: one LTP event, no sleeps. -/
theorem safe_ltp_first_success (fetch : ℕ → Option ℚ) (p : ℚ)
    (h : fetch 0 = some p) : safe_ltp fetch = (some p, 1, [Event.ltp true]) := by
  simp [safe_ltp, safe_ltp_go, h]

/-- The retry loop performs at most as many LTP attempts as its budget. -/
theorem safe_ltp_go_count_le (fetch : ℕ → Option ℚ) (a i : ℕ) :
    ltpCount (safe_ltp_go fetch a i).2.2 ≤ a := by
  induction a generalizing i with
  | zero => simp [safe_ltp_go, ltpCount]
  | succ a ih =>
    simp only [safe_ltp_go]
    cases h : fetch i with
    | some p => simp [ltpCount]
    | none =>
      simp only [ltpCount, List.filter] at ih ⊢
      have := ih (i + 1)
      simp only [List.length_cons]
      omega

/-- A fetch that always fails exhausts the whole budget: the loop returns the
raising result after exactly `a` failed attempts. -/
theorem safe_ltp_go_all_fail (fetch : ℕ → Option ℚ) (a i : ℕ)
    (h : ∀ j, fetch j = none) :
    safe_ltp_go fetch a i = (none, i + a, ltpFailTrace a) := by
  induction a generalizing i with
  | zero => simp [safe_ltp_go, ltpFailTrace]
  | succ a ih =>
    simp only [safe_ltp_go, h i, ih (i + 1), ltpFailTrace, Prod.mk.injEq]
    exact ⟨trivial, by omega, trivial⟩

/-- A trace of `a` failed attempts contains exactly `a` LTP events. -/
theorem ltpCount_ltpFailTrace (a : ℕ) : ltpCount (ltpFailTrace a) = a := by
  induction a with
  | zero => rfl
  | succ a ih =>
    simp only [ltpFailTrace, ltpCount, List.filter, List.length_cons] at ih ⊢
    omega

/-- Order success on the first attempt: one order event, no sleeps. -/
theorem place_order_first_success (ok : ℕ → Bool) (s : Option String)
    (t : String) (q : ℤ) (i : ℕ) (h : ok i = true) :
    place_order ok s t q i = (true, i + 1, [Event.order s t q true]) := by
  simp [place_order, place_order_go, h]

/-- The order retry loop performs at most as many attempts as its budget. -/
theorem place_order_go_count_le (ok : ℕ → Bool) (s : Option String)
    (t : String) (q : ℤ) (a i : ℕ) :
    (orderCalls (place_order_go ok s t q a i).2.2).length ≤ a := by
  induction a generalizing i with
  | zero => simp [place_order_go, orderCalls]
  | succ a ih =>
    simp only [place_order_go]
    by_cases h : ok i = true
    · simp [h, orderCalls]
    · simp only [Bool.not_eq_true] at h
      simp only [h, if_neg Bool.false_ne_true, orderCalls, List.filterMap] at ih ⊢
      have := ih (i + 1)
      simp only [List.length_cons]
      omega

/-- Orders that fail at every attempt exhaust the whole budget: the loop
returns the raising result after exactly `a` failed attempts. -/
theorem place_order_go_all_fail (ok : ℕ → Bool) (s : Option String)
    (t : String) (q : ℤ) (a i : ℕ) (h : ∀ j, j < a → ok (i + j) = false) :
    place_order_go ok s t q a i = (false, i + a, orderFailTrace s t q a) := by
  induction a generalizing i with
  | zero => simp [place_order_go, orderFailTrace]
  | succ a ih =>
    have h0 : ok i = false := by have := h 0 (by omega); simpa using this
    have hrest : ∀ j, j < a → ok (i + 1 + j) = false := by
      intro j hj
      have hh := h (j + 1) (by omega)
      have e : i + (j + 1) = i + 1 + j := by omega
      rwa [e] at hh
    simp only [place_order_go, h0, if_neg Bool.false_ne_true, orderFailTrace,
      ih (i + 1) hrest, Prod.mk.injEq]
    exact ⟨trivial, by omega, trivial⟩

/-- The failed-order trace consists of exactly `a` failed attempts of the
same order and nothing else. -/
theorem orderCalls_orderFailTrace (s : Option String) (t : String) (q : ℤ)
    (a : ℕ) :
    orderCalls (orderFailTrace s t q a) = List.replicate a (s, t, q, false) := by
  induction a with
  | zero => rfl
  | succ a ih =>
    simp only [orderFailTrace, orderCalls, List.filterMap] at ih ⊢
    simp [ih, List.replicate]

/-! Claim theorems: retry bound and position snapshot. -/

/-- C7: every retry loop invokes its operation at most `maxAttempts` times;
an always-failing price fetch is invoked exactly `maxAttempts` times and
yields the raising result, which the webhook's outermost handler converts
into the generic error response carrying the LTP-failure message (the
service answers instead of crashing). -/
theorem retry_bound_spec :
    (∀ (fetch : ℕ → Option ℚ) (a i : ℕ),
      ltpCount (safe_ltp_go fetch a i).2.2 ≤ a) ∧
    (∀ (fetch : ℕ → Option ℚ) (a i : ℕ), (∀ j, fetch j = none) →
      (safe_ltp_go fetch a i).1 = none ∧
      ltpCount (safe_ltp_go fetch a i).2.2 = a) ∧
    (∀ (ok : ℕ → Bool) (s : Option String) (t : String) (q : ℤ) (a i : ℕ),
      (orderCalls (place_order_go ok s t q a i).2.2).length ≤ a) ∧
    ∀ (br : Broker) (req : Request) (st : BotState) (testMode : Bool)
      (ty : String) (qf : Option ℤ),
      is_market_open req.istSecs = true →
      req.body = some (ty, qf) →
      (∀ j, br.ltpResult j = none) →
      webhook br req st testMode = (WebhookResp.errorResp ltpFailMsg, st, ltpFailTrace 5) ∧
      ltpCount (ltpFailTrace 5) = 5 := by
  refine ⟨safe_ltp_go_count_le, ?_, place_order_go_count_le, ?_⟩
  · intro fetch a i h
    rw [safe_ltp_go_all_fail fetch a i h]
    exact ⟨rfl, ltpCount_ltpFailTrace a⟩
  · intro br req st testMode ty qf hopen hbody hfail
    refine ⟨?_, ltpCount_ltpFailTrace 5⟩
    have hltp : safe_ltp br.ltpResult = (none, 0 + 5, ltpFailTrace 5) :=
      safe_ltp_go_all_fail br.ltpResult 5 0 hfail
    simp [webhook, hopen, hbody, hltp]

/-- Witness for `retry_bound_spec`: a concrete always-failing broker makes the
webhook answer the LTP-failure error response after five attempts. -/
theorem retry_bound_spec_witness :
    webhook (Broker.mk (fun _ => none) (fun _ => true) (some []))
        (Request.mk 36000 0 2025 6 10 0 (some ("CE", some 35)))
        (BotState.mk [] none) false =
      (WebhookResp.errorResp ltpFailMsg, BotState.mk [] none, ltpFailTrace 5) ∧
    ltpCount (ltpFailTrace 5) = 5 :=
  (retry_bound_spec.2.2.2 (Broker.mk (fun _ => none) (fun _ => true) (some []))
    (Request.mk 36000 0 2025 6 10 0 (some ("CE", some 35)))
    (BotState.mk [] none) false "CE" (some 35) (by decide) rfl (fun _ => rfl))

/-- C9: in live mode the snapshot contains exactly the broker-reported
positions of nonzero quantity (in reported order), and a failing broker query
yields the empty snapshot instead of an error. -/
theorem positions_snapshot_spec (fake : List (String × ℤ)) :
    (∀ ps : List (String × ℤ), ∀ p,
      (p ∈ get_current_positions false fake (some ps) ↔ p ∈ ps ∧ p.2 ≠ 0)) ∧
    get_current_positions false fake none = [] := by
  constructor
  · intro ps p
    simp [get_current_positions, List.mem_filter]
  · rfl

/-- Witness for `positions_snapshot_spec`: a failing broker query yields the
empty snapshot. -/
theorem positions_snapshot_spec_witness :
    get_current_positions false [] none = [] :=
  (positions_snapshot_spec []).2

/-! String-suffix lemmas for the side checks. -/

/-- Appending a suffix makes Python's `endswith` true. -/
theorem pyEndsWith_append (a b : String) : pyEndsWith (a ++ b) b = true := by
  rw [pyEndsWith, List.isSuffixOf_iff_suffix, String.data_append]
  exact List.suffix_append _ _

/-- A resolved option symbol always ends with the requested side string. -/
theorem get_option_symbol_endsWith (spot : ℚ) (ty : String) (y : ℤ) (m : ℕ)
    (d s : ℤ) : pyEndsWith (get_option_symbol spot ty y m d s) ty = true := by
  unfold get_option_symbol
  exact pyEndsWith_append _ ty

/-- Equal-length distinct suffixes are mutually exclusive. -/
theorem pyEndsWith_exclusive (s u v : String)
    (hlen : u.data.length = v.data.length) (hne : u.data ≠ v.data)
    (h : pyEndsWith s u = true) : pyEndsWith s v = false := by
  rw [pyEndsWith, List.isSuffixOf_iff_suffix] at h
  by_contra hv
  rw [Bool.not_eq_false, pyEndsWith, List.isSuffixOf_iff_suffix] at hv
  have h2 : v.data <:+ u.data :=
    List.suffix_of_suffix_length_le hv h (by omega)
  exact hne (h2.eq_of_length hlen.symm).symm

/-- A string ending in `"CE"` does not end in `"PE"`. -/
theorem endsWith_ce_not_pe (s : String) (h : pyEndsWith s "CE" = true) :
    pyEndsWith s "PE" = false :=
  pyEndsWith_exclusive s "CE" "PE" (by decide) (by decide) h

/-- A string ending in `"PE"` does not end in `"CE"`. -/
theorem endsWith_pe_not_ce (s : String) (h : pyEndsWith s "PE" = true) :
    pyEndsWith s "CE" = false :=
  pyEndsWith_exclusive s "PE" "CE" (by decide) (by decide) h

/-! Branch lemmas for the webhook handler. -/

/-- When the cooldown guard fires, every request is skipped with no order
activity and no state change, whatever the snapshot holds. -/
theorem webhook_cooldown_skip (br : Broker) (req : Request) (st : BotState)
    (testMode : Bool) (ty : String) (qf : Option ℤ) (spot : ℚ)
    (hopen : is_market_open req.istSecs = true)
    (hbody : req.body = some (ty, qf))
    (hltp : br.ltpResult 0 = some spot)
    (hcool : cooldown_active st.last_flip_time req.nowUs = true) :
    webhook br req st testMode = (WebhookResp.skippedCooldown, st, [Event.ltp true]) := by
  have hltp' := safe_ltp_first_success br.ltpResult spot hltp
  simp [webhook, hopen, hbody, hltp', hcool]

/-- A signal whose side matches a held position is skipped as a duplicate:
no order, no state change. -/
theorem webhook_dup_skip (br : Broker) (req : Request) (st : BotState)
    (testMode : Bool) (ty : String) (qf : Option ℤ) (spot : ℚ)
    (hopen : is_market_open req.istSecs = true)
    (hbody : req.body = some (ty, qf))
    (hltp : br.ltpResult 0 = some spot)
    (hcool : cooldown_active st.last_flip_time req.nowUs = false)
    (hany : (get_current_positions testMode st.fake_positions br.netPositions).any
      (fun p => pyEndsWith p.1 ty) = true) :
    webhook br req st testMode = (WebhookResp.skippedAlready ty, st, [Event.ltp true]) := by
  have hltp' := safe_ltp_first_success br.ltpResult spot hltp
  have hne : (get_current_positions testMode st.fake_positions br.netPositions).isEmpty
      = false := by
    cases h : get_current_positions testMode st.fake_positions br.netPositions with
    | nil => rw [h] at hany; simp at hany
    | cons a l => rfl
  simp [webhook, hopen, hbody, hltp', hcool, hne, hany]

/-- A live-mode entry from a flat snapshot places exactly one BUY order and
leaves the module state (including the cooldown stamp) unchanged. -/
theorem webhook_entry_live (br : Broker) (req : Request) (st : BotState)
    (ty : String) (qf : Option ℤ) (spot : ℚ)
    (hopen : is_market_open req.istSecs = true)
    (hbody : req.body = some (ty, qf))
    (hltp : br.ltpResult 0 = some spot)
    (hcool : cooldown_active st.last_flip_time req.nowUs = false)
    (hpos : get_current_positions false st.fake_positions br.netPositions = [])
    (hord0 : br.orderOk 0 = true) :
    webhook br req st false =
      (WebhookResp.successEntry
          (get_option_symbol spot ty req.year req.month req.day req.daySecs),
        st,
        [Event.ltp true,
          Event.order
            (some (get_option_symbol spot ty req.year req.month req.day req.daySecs))
            "BUY" (qf.getD DEFAULT_QTY) true]) := by
  have hltp' := safe_ltp_first_success br.ltpResult spot hltp
  have hord := place_order_first_success br.orderOk
    (some (get_option_symbol spot ty req.year req.month req.day req.daySecs))
    "BUY" (qf.getD DEFAULT_QTY) 0 hord0
  simp [webhook, hopen, hbody, hltp', hcool, hpos, hord]

/-- A rehearsal-mode entry from an empty store records the single new
position and does not touch the cooldown stamp. -/
theorem webhook_entry_test (br : Broker) (req : Request) (st : BotState)
    (ty : String) (qf : Option ℤ) (spot : ℚ)
    (hopen : is_market_open req.istSecs = true)
    (hbody : req.body = some (ty, qf))
    (hltp : br.ltpResult 0 = some spot)
    (hcool : cooldown_active st.last_flip_time req.nowUs = false)
    (hfake : st.fake_positions = []) :
    webhook br req st true =
      (WebhookResp.testEntry
          (get_option_symbol spot ty req.year req.month req.day req.daySecs),
        BotState.mk
          [(get_option_symbol spot ty req.year req.month req.day req.daySecs,
            qf.getD DEFAULT_QTY)]
          st.last_flip_time,
        [Event.ltp true]) := by
  have hltp' := safe_ltp_first_success br.ltpResult spot hltp
  simp [webhook, hopen, hbody, hltp', hcool, get_current_positions, hfake, dictSet]

/-- A rehearsal-mode flip deletes the single opposite-side position, records
the new one, and stamps the cooldown. -/
theorem webhook_flip_test (br : Broker) (req : Request) (st : BotState)
    (ty : String) (qf : Option ℤ) (spot : ℚ) (s : String) (q0 : ℤ)
    (hopen : is_market_open req.istSecs = true)
    (hbody : req.body = some (ty, qf))
    (hltp : br.ltpResult 0 = some spot)
    (hcool : cooldown_active st.last_flip_time req.nowUs = false)
    (hfake : st.fake_positions = [(s, q0)])
    (hopp : pyEndsWith s (if ty = "CE" then "PE" else "CE") = true)
    (hnot : pyEndsWith s ty = false) :
    webhook br req st true =
      (WebhookResp.testFlip (some s)
          (get_option_symbol spot ty req.year req.month req.day req.daySecs),
        BotState.mk
          [(get_option_symbol spot ty req.year req.month req.day req.daySecs,
            qf.getD DEFAULT_QTY)]
          (some req.nowUs),
        [Event.ltp true]) := by
  have hltp' := safe_ltp_first_success br.ltpResult spot hltp
  simp [webhook, hopen, hbody, hltp', hcool, get_current_positions, hfake,
    hopp, hnot, dictDel, dictSet]

/-- A live-mode flip with both orders succeeding: SELL the held opposite-side
symbol, then BUY the resolved symbol, then stamp the cooldown. -/
theorem webhook_flip_live (br : Broker) (req : Request) (st : BotState)
    (ty : String) (qf : Option ℤ) (spot : ℚ) (s : String) (q0 : ℤ)
    (hopen : is_market_open req.istSecs = true)
    (hbody : req.body = some (ty, qf))
    (hltp : br.ltpResult 0 = some spot)
    (hcool : cooldown_active st.last_flip_time req.nowUs = false)
    (hsnap : get_current_positions false st.fake_positions br.netPositions = [(s, q0)])
    (hopp : pyEndsWith s (if ty = "CE" then "PE" else "CE") = true)
    (hnot : pyEndsWith s ty = false)
    (hord0 : br.orderOk 0 = true)
    (hord1 : br.orderOk 1 = true) :
    webhook br req st false =
      (WebhookResp.successFlip (some s)
          (get_option_symbol spot ty req.year req.month req.day req.daySecs),
        { st with last_flip_time := some req.nowUs },
        [Event.ltp true,
          Event.order (some s) "SELL" (qf.getD DEFAULT_QTY) true,
          Event.order
            (some (get_option_symbol spot ty req.year req.month req.day req.daySecs))
            "BUY" (qf.getD DEFAULT_QTY) true]) := by
  have hltp' := safe_ltp_first_success br.ltpResult spot hltp
  have hsell := place_order_first_success br.orderOk (some s) "SELL"
    (qf.getD DEFAULT_QTY) 0 hord0
  have hbuy := place_order_first_success br.orderOk
    (some (get_option_symbol spot ty req.year req.month req.day req.daySecs))
    "BUY" (qf.getD DEFAULT_QTY) 1 hord1
  simp [webhook, hopen, hbody, hltp', hcool, hsnap, hopp, hnot,
    exit_position, hsell, hbuy]

/-- A live-mode flip whose SELL leg fails at every attempt: the exit is tried
five times, the BUY leg is never attempted, the state (cooldown included) is
unchanged, and the handler answers the generic error response. -/
theorem webhook_flip_exit_fail (br : Broker) (req : Request) (st : BotState)
    (ty : String) (qf : Option ℤ) (spot : ℚ) (s : String) (q0 : ℤ)
    (hopen : is_market_open req.istSecs = true)
    (hbody : req.body = some (ty, qf))
    (hltp : br.ltpResult 0 = some spot)
    (hcool : cooldown_active st.last_flip_time req.nowUs = false)
    (hsnap : get_current_positions false st.fake_positions br.netPositions = [(s, q0)])
    (hopp : pyEndsWith s (if ty = "CE" then "PE" else "CE") = true)
    (hnot : pyEndsWith s ty = false)
    (hfail : ∀ j, j < 5 → br.orderOk j = false) :
    webhook br req st false =
      (WebhookResp.errorResp orderFailMsg, st,
        Event.ltp true :: orderFailTrace (some s) "SELL" (qf.getD DEFAULT_QTY) 5) := by
  have hltp' := safe_ltp_first_success br.ltpResult spot hltp
  have hsell : place_order br.orderOk (some s) "SELL" (qf.getD DEFAULT_QTY) 0 =
      (false, 0 + 5, orderFailTrace (some s) "SELL" (qf.getD DEFAULT_QTY) 5) :=
    place_order_go_all_fail br.orderOk (some s) "SELL" (qf.getD DEFAULT_QTY) 5 0
      (fun j hj => by simpa using hfail j hj)
  simp [webhook, hopen, hbody, hltp', hcool, hsnap, hopp, hnot,
    exit_position, hsell]

/-! Claim theorems: the live flip. -/

/-- C1 (counterexample): a concrete successful live flip from a CE holding to
PE issues the SELL and the BUY back to back with no sleep event anywhere in
the trace: the engine enforces no pause between the two legs (its 1-second
sleeps happen only after failed order attempts). -/
theorem flip_pause_counterexample :
    webhook
        (Broker.mk (fun _ => some 56789) (fun _ => true)
          (some [("BANKNIFTY25JUN56700CE", 35)]))
        (Request.mk 36000 100000000 2025 6 10 0 (some ("PE", some 35)))
        (BotState.mk [] none) false =
      (WebhookResp.successFlip (some "BANKNIFTY25JUN56700CE") "BANKNIFTY25JUN56800PE",
        BotState.mk [] (some 100000000),
        [Event.ltp true,
          Event.order (some "BANKNIFTY25JUN56700CE") "SELL" 35 true,
          Event.order (some "BANKNIFTY25JUN56800PE") "BUY" 35 true]) ∧
    ([Event.ltp true,
        Event.order (some "BANKNIFTY25JUN56700CE") "SELL" 35 true,
        Event.order (some "BANKNIFTY25JUN56800PE") "BUY" 35 true].all
      (fun e => match e with | Event.sleep _ => false | _ => true)) = true :=
  ⟨by decide, by decide⟩

/-- C1 (amended): a live flip whose snapshot holds one CE position, on a PE
signal with the cooldown inactive and orders succeeding, issues exactly one
SELL for the held CE symbol followed by exactly one BUY for the resolved PE
symbol, in that order, with no pause between the legs, and updates the
cooldown stamp to the flip time. -/
theorem flip_ce_to_pe_spec
    (br : Broker) (req : Request) (st : BotState) (q q0 : ℤ) (spot : ℚ)
    (ceSym : String)
    (hopen : is_market_open req.istSecs = true)
    (hbody : req.body = some ("PE", some q))
    (hltp : br.ltpResult 0 = some spot)
    (hsnap : get_current_positions false st.fake_positions br.netPositions
      = [(ceSym, q0)])
    (hce : pyEndsWith ceSym "CE" = true)
    (hcool : cooldown_active st.last_flip_time req.nowUs = false)
    (hord0 : br.orderOk 0 = true)
    (hord1 : br.orderOk 1 = true) :
    webhook br req st false =
      (WebhookResp.successFlip (some ceSym)
          (get_option_symbol spot "PE" req.year req.month req.day req.daySecs),
        { st with last_flip_time := some req.nowUs },
        [Event.ltp true, Event.order (some ceSym) "SELL" q true,
          Event.order
            (some (get_option_symbol spot "PE" req.year req.month req.day req.daySecs))
            "BUY" q true]) ∧
    orderCalls (webhook br req st false).2.2 =
      [(some ceSym, "SELL", q, true),
        (some (get_option_symbol spot "PE" req.year req.month req.day req.daySecs),
          "BUY", q, true)] := by
  have hnpe : pyEndsWith ceSym "PE" = false := endsWith_ce_not_pe ceSym hce
  have hltp' := safe_ltp_first_success br.ltpResult spot hltp
  have hsell := place_order_first_success br.orderOk (some ceSym) "SELL" q 0 hord0
  have hbuy := place_order_first_success br.orderOk
    (some (get_option_symbol spot "PE" req.year req.month req.day req.daySecs))
    "BUY" q 1 hord1
  have h1 : webhook br req st false =
      (WebhookResp.successFlip (some ceSym)
          (get_option_symbol spot "PE" req.year req.month req.day req.daySecs),
        { st with last_flip_time := some req.nowUs },
        [Event.ltp true, Event.order (some ceSym) "SELL" q true,
          Event.order
            (some (get_option_symbol spot "PE" req.year req.month req.day req.daySecs))
            "BUY" q true]) := by
    simp [webhook, hbody, hopen, hltp', hsnap, hcool, hce, hnpe,
      exit_position, hsell, hbuy]
  refine ⟨h1, ?_⟩
  rw [h1]
  rfl

/-- Witness for `flip_ce_to_pe_spec` at a fully concrete broker and request. -/
theorem flip_ce_to_pe_spec_witness :
    webhook
        (Broker.mk (fun _ => some 56789) (fun _ => true)
          (some [("XCE", 35)]))
        (Request.mk 36000 7000000 2025 6 10 0 (some ("PE", some 40)))
        (BotState.mk [] (some 1000000)) false =
      (WebhookResp.successFlip (some "XCE")
          (get_option_symbol 56789 "PE" 2025 6 10 0),
        { BotState.mk [] (some 1000000) with last_flip_time := some 7000000 },
        [Event.ltp true, Event.order (some "XCE") "SELL" 40 true,
          Event.order (some (get_option_symbol 56789 "PE" 2025 6 10 0))
            "BUY" 40 true]) ∧
    orderCalls
        (webhook
          (Broker.mk (fun _ => some 56789) (fun _ => true)
            (some [("XCE", 35)]))
          (Request.mk 36000 7000000 2025 6 10 0 (some ("PE", some 40)))
          (BotState.mk [] (some 1000000)) false).2.2 =
      [(some "XCE", "SELL", 40, true),
        (some (get_option_symbol 56789 "PE" 2025 6 10 0), "BUY", 40, true)] :=
  flip_ce_to_pe_spec
    (Broker.mk (fun _ => some 56789) (fun _ => true) (some [("XCE", 35)]))
    (Request.mk 36000 7000000 2025 6 10 0 (some ("PE", some 40)))
    (BotState.mk [] (some 1000000)) 40 35 56789 "XCE"
    (by decide) rfl rfl (by decide) (by decide) (by decide) rfl rfl

/-! Claim theorems: cooldown guard. -/

/-- C2 (counterexample): with the snapshot flat and the cooldown active
(1.5 s after a flip), an entry signal is skipped with zero orders and the
position unchanged — the cooldown check runs before the Flat-entry branch,
so entries are NOT exempt from it. -/
theorem cooldown_blocks_entry_counterexample :
    webhook (Broker.mk (fun _ => some 56789) (fun _ => true) (some []))
        (Request.mk 36000 100500000 2025 6 10 0 (some ("CE", some 35)))
        (BotState.mk [] (some 99000000)) false =
      (WebhookResp.skippedCooldown, BotState.mk [] (some 99000000),
        [Event.ltp true]) ∧
    orderCalls [Event.ltp true] = [] :=
  ⟨by decide, by decide⟩

/-- C2 (amended): the cooldown guard is evaluated before every branch, so
within 2 seconds of the last flip ALL signals — including entries from a flat
snapshot — are skipped with zero order calls and unchanged state; the guard
is inactive exactly when 2 or more seconds have elapsed; and with it inactive
a flip (here PE-held, CE signal) proceeds normally. -/
theorem cooldown_guard_spec :
    (∀ (br : Broker) (req : Request) (st : BotState) (testMode : Bool)
        (ty : String) (qf : Option ℤ) (spot : ℚ),
      is_market_open req.istSecs = true →
      req.body = some (ty, qf) →
      br.ltpResult 0 = some spot →
      cooldown_active st.last_flip_time req.nowUs = true →
      webhook br req st testMode =
        (WebhookResp.skippedCooldown, st, [Event.ltp true]) ∧
      orderCalls (webhook br req st testMode).2.2 = []) ∧
    (∀ t now : ℤ, cooldown_active (some t) now = false ↔ 2000000 ≤ now - t) ∧
    (∀ (br : Broker) (req : Request) (st : BotState) (qf : Option ℤ)
        (spot : ℚ) (peSym : String) (q0 t : ℤ),
      is_market_open req.istSecs = true →
      req.body = some ("CE", qf) →
      br.ltpResult 0 = some spot →
      st.last_flip_time = some t →
      2000000 ≤ req.nowUs - t →
      get_current_positions false st.fake_positions br.netPositions = [(peSym, q0)] →
      pyEndsWith peSym "PE" = true →
      br.orderOk 0 = true →
      br.orderOk 1 = true →
      webhook br req st false =
        (WebhookResp.successFlip (some peSym)
            (get_option_symbol spot "CE" req.year req.month req.day req.daySecs),
          { st with last_flip_time := some req.nowUs },
          [Event.ltp true,
            Event.order (some peSym) "SELL" (qf.getD DEFAULT_QTY) true,
            Event.order
              (some (get_option_symbol spot "CE" req.year req.month req.day req.daySecs))
              "BUY" (qf.getD DEFAULT_QTY) true])) := by
  refine ⟨?_, ?_, ?_⟩
  · intro br req st testMode ty qf spot hopen hbody hltp hcool
    have h := webhook_cooldown_skip br req st testMode ty qf spot hopen hbody hltp hcool
    rw [h]
    exact ⟨rfl, rfl⟩
  · intro t now
    simp only [cooldown_active, decide_eq_false_iff_not, not_lt]
  · intro br req st qf spot peSym q0 t hopen hbody hltp hlf h2s hsnap hpe hord0 hord1
    have hcool : cooldown_active st.last_flip_time req.nowUs = false := by
      rw [hlf]
      simp only [cooldown_active, decide_eq_false_iff_not, not_lt]
      omega
    have hopp : pyEndsWith peSym (if "CE" = "CE" then "PE" else "CE") = true := by
      simpa using hpe
    exact webhook_flip_live br req st "CE" qf spot peSym q0 hopen hbody hltp hcool
      hsnap hopp (endsWith_pe_not_ce peSym hpe) hord0 hord1

/-- Witness for `cooldown_guard_spec`: a concrete flip 8 seconds after the
previous one proceeds. -/
theorem cooldown_guard_spec_witness :
    webhook (Broker.mk (fun _ => some 56789) (fun _ => true) (some [("XPE", 35)]))
        (Request.mk 36000 9000000 2025 6 10 0 (some ("CE", some 42)))
        (BotState.mk [] (some 1000000)) false =
      (WebhookResp.successFlip (some "XPE")
          (get_option_symbol 56789 "CE" 2025 6 10 0),
        { BotState.mk [] (some 1000000) with last_flip_time := some 9000000 },
        [Event.ltp true,
          Event.order (some "XPE") "SELL" ((some (42 : ℤ)).getD DEFAULT_QTY) true,
          Event.order (some (get_option_symbol 56789 "CE" 2025 6 10 0))
            "BUY" ((some (42 : ℤ)).getD DEFAULT_QTY) true]) :=
  cooldown_guard_spec.2.2
    (Broker.mk (fun _ => some 56789) (fun _ => true) (some [("XPE", 35)]))
    (Request.mk 36000 9000000 2025 6 10 0 (some ("CE", some 42)))
    (BotState.mk [] (some 1000000)) (some 42) 56789 "XPE" 35 1000000
    (by decide) rfl rfl rfl (by decide) (by decide) (by decide) rfl rfl

/-! Claim theorems: duplicate-side skip. -/

/-- C3: a signal whose side matches a held position is a no-op (no order,
state unchanged, response a skip), and processing two identical same-side
signals back to back from a flat live snapshot places exactly one entry
order in total — the second is skipped as a duplicate once the fresh snapshot
reports the position entered by the first. -/
theorem duplicate_skip_spec :
    (∀ (br : Broker) (req : Request) (st : BotState) (testMode : Bool)
        (ty : String) (qf : Option ℤ) (spot : ℚ),
      is_market_open req.istSecs = true →
      req.body = some (ty, qf) →
      br.ltpResult 0 = some spot →
      (get_current_positions testMode st.fake_positions br.netPositions).any
        (fun p => pyEndsWith p.1 ty) = true →
      (webhook br req st testMode).2.1 = st ∧
      orderCalls (webhook br req st testMode).2.2 = [] ∧
      ((webhook br req st testMode).1 = WebhookResp.skippedCooldown ∨
        (webhook br req st testMode).1 = WebhookResp.skippedAlready ty)) ∧
    (∀ (br1 br2 : Broker) (req1 req2 : Request) (st : BotState) (ty : String)
        (q : ℤ) (qf2 : Option ℤ) (spot1 spot2 : ℚ),
      is_market_open req1.istSecs = true →
      req1.body = some (ty, some q) →
      br1.ltpResult 0 = some spot1 →
      cooldown_active st.last_flip_time req1.nowUs = false →
      get_current_positions false st.fake_positions br1.netPositions = [] →
      br1.orderOk 0 = true →
      is_market_open req2.istSecs = true →
      req2.body = some (ty, qf2) →
      br2.ltpResult 0 = some spot2 →
      q ≠ 0 →
      br2.netPositions = some
        [(get_option_symbol spot1 ty req1.year req1.month req1.day req1.daySecs, q)] →
      webhook br1 req1 st false =
        (WebhookResp.successEntry
            (get_option_symbol spot1 ty req1.year req1.month req1.day req1.daySecs),
          st,
          [Event.ltp true,
            Event.order
              (some (get_option_symbol spot1 ty req1.year req1.month req1.day req1.daySecs))
              "BUY" q true]) ∧
      (webhook br2 req2 st false).2.1 = st ∧
      orderCalls (webhook br2 req2 st false).2.2 = [] ∧
      orderCalls
          ([Event.ltp true,
            Event.order
              (some (get_option_symbol spot1 ty req1.year req1.month req1.day req1.daySecs))
              "BUY" q true] ++ (webhook br2 req2 st false).2.2) =
        [(some (get_option_symbol spot1 ty req1.year req1.month req1.day req1.daySecs),
          "BUY", q, true)]) := by
  have main : ∀ (br : Broker) (req : Request) (st : BotState) (testMode : Bool)
      (ty : String) (qf : Option ℤ) (spot : ℚ),
      is_market_open req.istSecs = true →
      req.body = some (ty, qf) →
      br.ltpResult 0 = some spot →
      (get_current_positions testMode st.fake_positions br.netPositions).any
        (fun p => pyEndsWith p.1 ty) = true →
      (webhook br req st testMode).2.1 = st ∧
      orderCalls (webhook br req st testMode).2.2 = [] ∧
      ((webhook br req st testMode).1 = WebhookResp.skippedCooldown ∨
        (webhook br req st testMode).1 = WebhookResp.skippedAlready ty) := by
    intro br req st testMode ty qf spot hopen hbody hltp hany
    by_cases hc : cooldown_active st.last_flip_time req.nowUs
    · rw [webhook_cooldown_skip br req st testMode ty qf spot hopen hbody hltp hc]
      exact ⟨rfl, rfl, Or.inl rfl⟩
    · rw [webhook_dup_skip br req st testMode ty qf spot hopen hbody hltp
        (by simpa using hc) hany]
      exact ⟨rfl, rfl, Or.inr rfl⟩
  refine ⟨main, ?_⟩
  intro br1 br2 req1 req2 st ty q qf2 spot1 spot2 hopen1 hbody1 hltp1 hcool1
    hpos1 hord1 hopen2 hbody2 hltp2 hq hnet2
  have h1 := webhook_entry_live br1 req1 st ty (some q) spot1 hopen1 hbody1
    hltp1 hcool1 hpos1 hord1
  have hany2 : (get_current_positions false st.fake_positions br2.netPositions).any
      (fun p => pyEndsWith p.1 ty) = true := by
    rw [hnet2]
    simp [get_current_positions, hq, get_option_symbol_endsWith]
  have h2 := main br2 req2 st false ty qf2 spot2 hopen2 hbody2 hltp2 hany2
  refine ⟨by simpa using h1, h2.1, h2.2.1, ?_⟩
  simp only [orderCalls, List.filterMap_append] at h2 ⊢
  rw [h2.2.1]
  rfl

/-- Witness for `duplicate_skip_spec`: a concrete back-to-back pair of CE
signals from flat yields one BUY then a duplicate skip. -/
theorem duplicate_skip_spec_witness :
    webhook (Broker.mk (fun _ => some 56789) (fun _ => true) (some []))
        (Request.mk 36000 0 2025 6 10 0 (some ("CE", some 35)))
        (BotState.mk [] none) false =
      (WebhookResp.successEntry (get_option_symbol 56789 "CE" 2025 6 10 0),
        BotState.mk [] none,
        [Event.ltp true,
          Event.order (some (get_option_symbol 56789 "CE" 2025 6 10 0))
            "BUY" 35 true]) ∧
    (webhook (Broker.mk (fun _ => some 56790) (fun _ => true)
          (some [(get_option_symbol 56789 "CE" 2025 6 10 0, 35)]))
        (Request.mk 36000 1000 2025 6 10 0 (some ("CE", some 35)))
        (BotState.mk [] none) false).2.1 = BotState.mk [] none ∧
    orderCalls
        (webhook (Broker.mk (fun _ => some 56790) (fun _ => true)
            (some [(get_option_symbol 56789 "CE" 2025 6 10 0, 35)]))
          (Request.mk 36000 1000 2025 6 10 0 (some ("CE", some 35)))
          (BotState.mk [] none) false).2.2 = [] ∧
    orderCalls
        ([Event.ltp true,
          Event.order (some (get_option_symbol 56789 "CE" 2025 6 10 0))
            "BUY" 35 true] ++
          (webhook (Broker.mk (fun _ => some 56790) (fun _ => true)
              (some [(get_option_symbol 56789 "CE" 2025 6 10 0, 35)]))
            (Request.mk 36000 1000 2025 6 10 0 (some ("CE", some 35)))
            (BotState.mk [] none) false).2.2) =
      [(some (get_option_symbol 56789 "CE" 2025 6 10 0), "BUY", 35, true)] :=
  duplicate_skip_spec.2
    (Broker.mk (fun _ => some 56789) (fun _ => true) (some []))
    (Broker.mk (fun _ => some 56790) (fun _ => true)
      (some [(get_option_symbol 56789 "CE" 2025 6 10 0, 35)]))
    (Request.mk 36000 0 2025 6 10 0 (some ("CE", some 35)))
    (Request.mk 36000 1000 2025 6 10 0 (some ("CE", some 35)))
    (BotState.mk [] none) "CE" 35 (some 35) 56789 56790
    (by decide) rfl rfl rfl rfl rfl (by decide) rfl rfl (by decide) rfl

/-! Claim theorems: partial flip failure. -/

/-- C4 (counterexample): when the exit leg of a live flip exhausts its five
retries, the handler answers the same generic `"error"` status used for any
caught exception (and for an unparseable body) — there is no distinct
PartialFlip surface — although the entry leg is indeed never attempted and
the state is unchanged. -/
theorem partial_flip_counterexample :
    webhook (Broker.mk (fun _ => some 56789) (fun _ => false)
        (some [("BANKNIFTY25JUN56700CE", 35)]))
      (Request.mk 36000 0 2025 6 10 0 (some ("PE", some 35)))
      (BotState.mk [] none) false =
      (WebhookResp.errorResp orderFailMsg, BotState.mk [] none,
        Event.ltp true :: orderFailTrace (some "BANKNIFTY25JUN56700CE") "SELL" 35 5) ∧
    (WebhookResp.errorResp orderFailMsg).status = "error" ∧
    WebhookResp.invalidJson.status = "error" ∧
    orderCalls (Event.ltp true ::
        orderFailTrace (some "BANKNIFTY25JUN56700CE") "SELL" 35 5) =
      List.replicate 5 (some "BANKNIFTY25JUN56700CE", "SELL", 35, false) :=
  ⟨by decide, rfl, rfl, by decide⟩

/-- C4 (amended): a live flip whose SELL leg fails after exhausting its five
retries never attempts the BUY leg, leaves the state — cooldown stamp
included — unchanged (the tracked position still holds the opposite side),
and reports the failure with the generic `"error"` status: distinct from
`"success"`, but the same status any caught exception produces, with no
dedicated PartialFlip marker. -/
theorem partial_flip_exit_fail_spec (br : Broker) (req : Request)
    (st : BotState) (qf : Option ℤ) (spot : ℚ) (ceSym : String) (q0 : ℤ)
    (hopen : is_market_open req.istSecs = true)
    (hbody : req.body = some ("PE", qf))
    (hltp : br.ltpResult 0 = some spot)
    (hcool : cooldown_active st.last_flip_time req.nowUs = false)
    (hsnap : get_current_positions false st.fake_positions br.netPositions
      = [(ceSym, q0)])
    (hce : pyEndsWith ceSym "CE" = true)
    (hfail : ∀ j, j < 5 → br.orderOk j = false) :
    webhook br req st false =
      (WebhookResp.errorResp orderFailMsg, st,
        Event.ltp true :: orderFailTrace (some ceSym) "SELL" (qf.getD DEFAULT_QTY) 5) ∧
    orderCalls (Event.ltp true ::
        orderFailTrace (some ceSym) "SELL" (qf.getD DEFAULT_QTY) 5) =
      List.replicate 5 (some ceSym, "SELL", qf.getD DEFAULT_QTY, false) ∧
    (WebhookResp.errorResp orderFailMsg).status = "error" ∧
    WebhookResp.invalidJson.status = "error" := by
  have hopp : pyEndsWith ceSym (if "PE" = "CE" then "PE" else "CE") = true := by
    simpa using hce
  refine ⟨webhook_flip_exit_fail br req st "PE" qf spot ceSym q0 hopen hbody hltp
    hcool hsnap hopp (endsWith_ce_not_pe ceSym hce) hfail, ?_, rfl, rfl⟩
  have h := orderCalls_orderFailTrace (some ceSym) "SELL" (qf.getD DEFAULT_QTY) 5
  simpa [orderCalls, List.filterMap_cons] using h

/-- Witness for `partial_flip_exit_fail_spec` at a concrete always-failing
order endpoint. -/
theorem partial_flip_exit_fail_spec_witness :
    webhook (Broker.mk (fun _ => some 56789) (fun _ => false)
        (some [("YCE", 35)]))
      (Request.mk 36000 0 2025 6 10 0 (some ("PE", some 40)))
      (BotState.mk [] none) false =
      (WebhookResp.errorResp orderFailMsg, BotState.mk [] none,
        Event.ltp true ::
          orderFailTrace (some "YCE") "SELL" ((some (40 : ℤ)).getD DEFAULT_QTY) 5) ∧
    orderCalls (Event.ltp true ::
        orderFailTrace (some "YCE") "SELL" ((some (40 : ℤ)).getD DEFAULT_QTY) 5) =
      List.replicate 5 (some "YCE", "SELL", (some (40 : ℤ)).getD DEFAULT_QTY, false) ∧
    (WebhookResp.errorResp orderFailMsg).status = "error" ∧
    WebhookResp.invalidJson.status = "error" :=
  partial_flip_exit_fail_spec
    (Broker.mk (fun _ => some 56789) (fun _ => false) (some [("YCE", 35)]))
    (Request.mk 36000 0 2025 6 10 0 (some ("PE", some 40)))
    (BotState.mk [] none) (some 40) 56789 "YCE" 35
    (by decide) rfl rfl rfl rfl (by decide) (fun j _ => rfl)

/-! Claim theorems: side validation. -/

/-- C8 (counterexample): a side value that is neither CE nor PE is not
rejected: symbol resolution takes the PE (rounded-up) strike branch and
produces a "tradable" symbol ending in the bogus side, and from a flat
snapshot the webhook places a BUY order for it. -/
theorem invalid_side_counterexample :
    get_option_symbol 56789 "XX" 2025 6 10 0 = "BANKNIFTY25JUN56800XX" ∧
    webhook (Broker.mk (fun _ => some 56789) (fun _ => true) (some []))
        (Request.mk 36000 0 2025 6 10 0 (some ("XX", some 35)))
        (BotState.mk [] none) false =
      (WebhookResp.successEntry "BANKNIFTY25JUN56800XX", BotState.mk [] none,
        [Event.ltp true,
          Event.order (some "BANKNIFTY25JUN56800XX") "BUY" 35 true]) :=
  ⟨by decide, by decide⟩

/-- C8 (amended): symbol resolution never fails on the side value: any side
other than `"CE"` silently takes the rounded-up (PE) strike branch and yields
the symbol `BANKNIFTY{expiry}{strike}{side}`, and a signal carrying such a
side is processed like any entry — from a flat snapshot with the cooldown
inactive, a BUY order for the bogus symbol is placed.  No InvalidSide error
exists anywhere in the handler. -/
theorem invalid_side_spec :
    (∀ (spot : ℚ) (ty : String) (y : ℤ) (m : ℕ) (d secs : ℤ), ty ≠ "CE" →
      strike_of spot ty = (intdiv100 spot + 1) * 100 ∧
      pyEndsWith (get_option_symbol spot ty y m d secs) ty = true) ∧
    (∀ (br : Broker) (req : Request) (st : BotState) (ty : String)
        (qf : Option ℤ) (spot : ℚ),
      is_market_open req.istSecs = true →
      req.body = some (ty, qf) →
      br.ltpResult 0 = some spot →
      cooldown_active st.last_flip_time req.nowUs = false →
      get_current_positions false st.fake_positions br.netPositions = [] →
      br.orderOk 0 = true →
      webhook br req st false =
        (WebhookResp.successEntry
            (get_option_symbol spot ty req.year req.month req.day req.daySecs),
          st,
          [Event.ltp true,
            Event.order
              (some (get_option_symbol spot ty req.year req.month req.day req.daySecs))
              "BUY" (qf.getD DEFAULT_QTY) true])) := by
  constructor
  · intro spot ty y m d secs hne
    constructor
    · unfold strike_of
      rw [if_neg hne]
    · exact get_option_symbol_endsWith spot ty y m d secs
  · intro br req st ty qf spot hopen hbody hltp hcool hpos hord0
    exact webhook_entry_live br req st ty qf spot hopen hbody hltp hcool hpos hord0

/-- Witness for `invalid_side_spec` at the concrete bogus side `"XX"`. -/
theorem invalid_side_spec_witness :
    (strike_of 56789 "XX" = (intdiv100 56789 + 1) * 100 ∧
      pyEndsWith (get_option_symbol 56789 "XX" 2025 6 10 0) "XX" = true) ∧
    webhook (Broker.mk (fun _ => some 56789) (fun _ => true) (some []))
        (Request.mk 36000 0 2025 6 10 0 (some ("XX", some 35)))
        (BotState.mk [] none) false =
      (WebhookResp.successEntry (get_option_symbol 56789 "XX" 2025 6 10 0),
        BotState.mk [] none,
        [Event.ltp true,
          Event.order (some (get_option_symbol 56789 "XX" 2025 6 10 0))
            "BUY" ((some (35 : ℤ)).getD DEFAULT_QTY) true]) :=
  ⟨invalid_side_spec.1 56789 "XX" 2025 6 10 0 (by decide),
    invalid_side_spec.2
      (Broker.mk (fun _ => some 56789) (fun _ => true) (some []))
      (Request.mk 36000 0 2025 6 10 0 (some ("XX", some 35)))
      (BotState.mk [] none) "XX" (some 35) 56789
      (by decide) rfl rfl rfl rfl rfl⟩

/-! Claim theorems: rehearsal-store invariant. -/

/-- Bodies the alerting source is specified to send: an unparseable body, or
a parsed body whose `type` is `CE` or `PE`. -/
def validSignalBody (b : Option (String × Option ℤ)) : Bool :=
  match b with
  | none => true
  | some (ty, _) => ty == "CE" || ty == "PE"

/-- Invariant of the rehearsal store: empty, or a single position whose
symbol carries a recognisable side suffix. -/
def StoreInv (st : BotState) : Prop :=
  st.fake_positions = [] ∨
  ∃ s q, st.fake_positions = [(s, q)] ∧
    (pyEndsWith s "CE" = true ∨ pyEndsWith s "PE" = true)

/-- One webhook request folded into the rehearsal-mode state. -/
def testStep (st : BotState) (input : Broker × Request) : BotState :=
  (webhook input.1 input.2 st true).2.1

/-- One rehearsal-mode request preserves the store invariant. -/
theorem webhook_test_inv (br : Broker) (req : Request) (st : BotState)
    (hb : validSignalBody req.body = true) (hinv : StoreInv st) :
    StoreInv (webhook br req st true).2.1 := by
  by_cases hopen : is_market_open req.istSecs
  case neg =>
    have hw : webhook br req st true = (WebhookResp.rejectedOutsideHours, st, []) := by
      simp [webhook, hopen]
    rw [hw]
    exact hinv
  case pos =>
    cases hbod : req.body with
    | none =>
      have hw : webhook br req st true = (WebhookResp.invalidJson, st, []) := by
        simp [webhook, hopen, hbod]
      rw [hw]
      exact hinv
    | some p =>
      obtain ⟨ty, qf⟩ := p
      have hty : ty = "CE" ∨ ty = "PE" := by
        rw [hbod] at hb
        simpa [validSignalBody] using hb
      cases hl : (safe_ltp br.ltpResult).1 with
      | none =>
        have hw : (webhook br req st true).2.1 = st := by
          simp [webhook, hopen, hbod, hl]
        rw [hw]
        exact hinv
      | some spot =>
        by_cases hc : cooldown_active st.last_flip_time req.nowUs
        · have hw : (webhook br req st true).2.1 = st := by
            simp [webhook, hopen, hbod, hl, hc]
          rw [hw]
          exact hinv
        · rcases hinv with hflat | ⟨s, q0, hfs, hside⟩
          · -- flat store: the request can only record a single entry
            have hw : (webhook br req st true).2.1 =
                BotState.mk
                  [(get_option_symbol spot ty req.year req.month req.day req.daySecs,
                    qf.getD DEFAULT_QTY)]
                  st.last_flip_time := by
              simp [webhook, hopen, hbod, hl, hc, get_current_positions, hflat,
                dictSet]
            rw [hw]
            refine Or.inr ⟨_, _, rfl, ?_⟩
            rcases hty with h | h <;> rw [h]
            · exact Or.inl (get_option_symbol_endsWith spot "CE" _ _ _ _)
            · exact Or.inr (get_option_symbol_endsWith spot "PE" _ _ _ _)
          · -- one held position: duplicate skip or flip, never a second entry
            have hparity :
                (pyEndsWith s ty = true ∧
                  pyEndsWith s (if ty = "CE" then "PE" else "CE") = false) ∨
                (pyEndsWith s ty = false ∧
                  pyEndsWith s (if ty = "CE" then "PE" else "CE") = true) := by
              rcases hty with h | h <;> rcases hside with hs | hs <;> rw [h]
              · exact Or.inl ⟨hs, by simpa using endsWith_ce_not_pe s hs⟩
              · exact Or.inr ⟨endsWith_pe_not_ce s hs, by simpa using hs⟩
              · exact Or.inr ⟨endsWith_ce_not_pe s hs, by simpa using hs⟩
              · exact Or.inl ⟨hs, by simpa using endsWith_pe_not_ce s hs⟩
            rcases hparity with ⟨hsame, _⟩ | ⟨hdiff, hopp⟩
            · -- duplicate: state unchanged
              have hw : (webhook br req st true).2.1 = st := by
                simp [webhook, hopen, hbod, hl, hc, get_current_positions, hfs,
                  hsame]
              rw [hw]
              exact Or.inr ⟨s, q0, hfs, hside⟩
            · -- flip: delete the held symbol, insert the new one
              have hw : (webhook br req st true).2.1 =
                  BotState.mk
                    [(get_option_symbol spot ty req.year req.month req.day req.daySecs,
                      qf.getD DEFAULT_QTY)]
                    (some req.nowUs) := by
                simp [webhook, hopen, hbod, hl, hc, get_current_positions, hfs,
                  hdiff, hopp, dictDel, dictSet]
              rw [hw]
              refine Or.inr ⟨_, _, rfl, ?_⟩
              rcases hty with h | h <;> rw [h]
              · exact Or.inl (get_option_symbol_endsWith spot "CE" _ _ _ _)
              · exact Or.inr (get_option_symbol_endsWith spot "PE" _ _ _ _)

/-- Folding any batch of invariant-respecting requests preserves the store
invariant. -/
theorem testStep_foldl_inv (steps : List (Broker × Request)) (st : BotState)
    (hall : steps.all (fun sr => validSignalBody sr.2.body) = true)
    (hinv : StoreInv st) : StoreInv (steps.foldl testStep st) := by
  induction steps generalizing st with
  | nil => exact hinv
  | cons a t ih =>
    simp only [List.all_cons, Bool.and_eq_true] at hall
    exact ih (testStep st a) hall.2 (webhook_test_inv a.1 a.2 st hall.1 hinv)

/-- C10: starting from the empty rehearsal store, any sequence of webhook
signals (each body unparseable or carrying side CE/PE) leaves at most one
position in the store — so it never simultaneously holds a CE and a PE
position. -/
theorem store_single_position_spec (steps : List (Broker × Request))
    (hall : steps.all (fun sr => validSignalBody sr.2.body) = true) :
    (steps.foldl testStep (BotState.mk [] none)).fake_positions.length ≤ 1 := by
  have h := testStep_foldl_inv steps (BotState.mk [] none) hall (Or.inl rfl)
  rcases h with h1 | ⟨s, q, h1, _⟩ <;> rw [h1] <;> simp

/-- Witness for `store_single_position_spec`: a concrete CE entry followed by
a PE flip leaves a single position. -/
theorem store_single_position_spec_witness :
    ([((Broker.mk (fun _ => some 56789) (fun _ => true) (some []) : Broker),
        Request.mk 36000 0 2025 6 10 0 (some ("CE", some 35))),
      (Broker.mk (fun _ => some 56789) (fun _ => true) (some []),
        Request.mk 36000 10000000 2025 6 10 0 (some ("PE", some 35)))].all
      (fun sr => validSignalBody sr.2.body) = true) ∧
    (([((Broker.mk (fun _ => some 56789) (fun _ => true) (some []) : Broker),
        Request.mk 36000 0 2025 6 10 0 (some ("CE", some 35))),
      (Broker.mk (fun _ => some 56789) (fun _ => true) (some []),
        Request.mk 36000 10000000 2025 6 10 0 (some ("PE", some 35)))].foldl
      testStep (BotState.mk [] none)).fake_positions.length ≤ 1) :=
  ⟨by decide,
    store_single_position_spec
      [((Broker.mk (fun _ => some 56789) (fun _ => true) (some []) : Broker),
          Request.mk 36000 0 2025 6 10 0 (some ("CE", some 35))),
        (Broker.mk (fun _ => some 56789) (fun _ => true) (some []),
          Request.mk 36000 10000000 2025 6 10 0 (some ("PE", some 35)))]
      (by decide)⟩

end Banknifty
